import Mathlib

/-!
Verification of the font-resolution and dashboard logic of
`src/korean_font_app.py` (a Streamlit demo that configures a Hangul-capable
matplotlib font and draws charts over a fixed 8-row dataset).

The Python source is shallowly embedded below: `setup_korean_font` becomes a
pure function from its process inputs (OS identifier, installed font names,
outcome of loading the bundled font file) and the prior global matplotlib
configuration to its returned value, its status, and the updated global
configuration.  The chart-drawing part of `main` becomes an explicit sequence
of steps acting on that global configuration.
-/

/-- Windows candidate list, `korean_font_app.py` line 29. -/
def windows_candidates : List String :=
  ["Malgun Gothic", "Microsoft YaHei", "SimHei"]

/-- macOS (Darwin) candidate list, line 32. -/
def darwin_candidates : List String :=
  ["AppleGothic", "Apple SD Gothic Neo", "Noto Sans CJK KR"]

/-- Linux / other candidate list, line 35. -/
def linux_candidates : List String :=
  ["Noto Sans CJK KR", "DejaVu Sans", "Liberation Sans"]

/-- The `if system == "Windows" / elif system == "Darwin" / else` branch of
`setup_korean_font`, lines 27-35. -/
def font_candidates (system : String) : List String :=
  if system = "Windows" then windows_candidates
  else if system = "Darwin" then darwin_candidates
  else linux_candidates

/-- The scan loop of lines 40-44: walk the candidate list in order, stop at
the first candidate that occurs (by exact string equality, Python `in` on a
list of names) in the installed-font list. -/
def select_font : List String → List String → Option String
  | [], _ => none
  | font :: rest, available_fonts =>
    if font ∈ available_fonts then some font else select_font rest available_fonts

/-- The slice of matplotlib global state the program touches:
`plt.rcParams['font.family']` and `plt.rcParams['axes.unicode_minus']`. -/
structure RcParams where
  fontFamily : String
  unicodeMinus : Bool
  deriving DecidableEq, Repr

/-- The three terminal paths of `setup_korean_font`: installed-candidate match
(line 49 `st.success`), bundled-file fallback (line 60 `st.success`), and
failure (line 63 `st.error`). -/
inductive FontStatus where
  | success
  | fallback
  | failure
  deriving DecidableEq, Repr

/-- `setup_korean_font`, lines 20-64.  `available_fonts` embeds
`[f.name for f in fm.fontManager.ttflist]` (line 38).  `bundled_font` embeds
the attempt of lines 54-61 to load `NotoSansKR-Regular.ttf`: `some name` when
the file is readable and its metadata name is `name`, `none` when the file is
absent, unreadable or malformed — in which case `font_prop.get_name()` raises
while evaluating the right-hand side of line 58, so neither rcParams
assignment of lines 58-59 happens and the `except` branch returns `None`
with the configuration `rc` untouched. -/
def setup_korean_font (system : String) (available_fonts : List String)
    (bundled_font : Option String) (rc : RcParams) :
    Option String × FontStatus × RcParams :=
  match select_font (font_candidates system) available_fonts with
  | some selected_font =>
    (some selected_font, FontStatus.success,
      { fontFamily := selected_font, unicodeMinus := false })
  | none =>
    match bundled_font with
    | some name =>
      (some name, FontStatus.fallback,
        { fontFamily := name, unicodeMinus := false })
    | none => (none, FontStatus.failure, rc)

/-- The `'지역'` column of the fixed dataset, line 82. -/
def regions : List String :=
  ["서울", "부산", "대구", "인천", "광주", "대전", "울산", "세종"]

/-- The `'인구수'` column of the fixed dataset, line 83. -/
def populations : List Nat :=
  [9720846, 3404423, 2401110, 2947217, 1441970, 1454679, 1124459, 365309]

/-- The pie chart of lines 123-138: `ax.pie(df['인구수'], labels=df['지역'])`
pairs each region label with its population value. -/
def pie_wedges : List (String × Nat) := regions.zip populations

/-- The summary metric of line 182: `df['인구수'].sum()`. -/
def total_population : Nat := populations.sum

/-- Does the character list `s` start with `sub`? -/
def startsWithChars : List Char → List Char → Bool
  | [], _ => true
  | _ :: _, [] => false
  | a :: as, b :: bs => a == b && startsWithChars as bs

/-- Does the character list contain `sub` as a contiguous run? -/
def containsChars (sub : List Char) : List Char → Bool
  | [] => startsWithChars sub []
  | c :: rest => startsWithChars sub (c :: rest) || containsChars sub rest

/-- Python's `sub in s` substring test on strings: contiguous containment of
the character sequence. -/
def hasSubstr (s sub : String) : Bool := containsChars sub.data s.data

/-- The filter condition of line 224:
`'Gothic' in f.name or 'Noto' in f.name or 'Malgun' in f.name`. -/
def hasKoreanMarker (name : String) : Bool :=
  hasSubstr name "Gothic" || hasSubstr name "Noto" || hasSubstr name "Malgun"

/-- The diagnostic panel's installed-font list, lines 224-228: filter the
enumerated font names by `hasKoreanMarker`, then show `available_fonts[:10]`. -/
def diagnostic_fonts (ttflist : List String) : List String :=
  (ttflist.filter hasKoreanMarker).take 10

/-- The chart panels `main` draws: one of the five matplotlib charts picked by
the sidebar selectbox (lines 95-166), then the Plotly bar chart (lines
196-204) and the Plotly donut chart (lines 208-214). -/
inductive Chart where
  | bar
  | line
  | pie
  | heatmap
  | scatter
  | plotlyBar
  | plotlyDonut
  deriving DecidableEq, Repr

/-- A step of `main` that touches rendering: the font-setup call of line 68,
or the drawing of one chart panel. -/
inductive MainStep where
  | setupFont
  | draw (c : Chart)
  deriving DecidableEq, Repr

/-- The `if chart_type == ... / elif ...` chain of lines 95-166 mapping the
sidebar selection to the matplotlib chart drawn in the first column. -/
def selected_chart (chart_type : String) : Option Chart :=
  if chart_type = "막대 차트" then some Chart.bar
  else if chart_type = "선 그래프" then some Chart.line
  else if chart_type = "파이 차트" then some Chart.pie
  else if chart_type = "히트맵" then some Chart.heatmap
  else if chart_type = "산점도" then some Chart.scatter
  else none

/-- The rendering-relevant steps of `main` in program order, lines 66-214:
font setup first (line 68), then the selected matplotlib chart, then the two
Plotly charts. -/
def main_steps (chart_type : String) : List MainStep :=
  MainStep.setupFont ::
    ((selected_chart chart_type).toList.map MainStep.draw ++
      [MainStep.draw Chart.plotlyBar, MainStep.draw Chart.plotlyDonut])

/-- Effect of drawing one chart on the global matplotlib configuration.  No
chart branch assigns to `plt.rcParams`: the only assignments in the program
are lines 47-48 and 58-59 inside `setup_korean_font` (line 221 only reads it
for display), so every drawing step leaves the global configuration as is. -/
def chart_effect (_c : Chart) (rc : RcParams) : RcParams := rc

/-- The figure-local font family a chart panel is drawn with: the two Plotly
charts set an explicit family list via `update_layout` (lines 201 and 211);
the matplotlib charts use the global `font.family`. -/
def chart_font (rc : RcParams) : Chart → String
  | Chart.plotlyBar => "Malgun Gothic, AppleGothic, Noto Sans CJK KR"
  | Chart.plotlyDonut => "Malgun Gothic, AppleGothic, Noto Sans CJK KR"
  | _ => rc.fontFamily

/-- Effect of one `main` step on the global configuration. -/
def step_effect (system : String) (available_fonts : List String)
    (bundled_font : Option String) : MainStep → RcParams → RcParams
  | MainStep.setupFont, rc =>
    (setup_korean_font system available_fonts bundled_font rc).2.2
  | MainStep.draw c, rc => chart_effect c rc

/-- Run all of `main`'s rendering-relevant steps, threading the global
configuration. -/
def run_main (system : String) (available_fonts : List String)
    (bundled_font : Option String) (chart_type : String) (rc : RcParams) :
    RcParams :=
  (main_steps chart_type).foldl
    (fun s st => step_effect system available_fonts bundled_font st s) rc

/-! ## Helper lemmas about the candidate scan -/

/-- The scan returns `none` exactly when no candidate is installed. -/
theorem select_font_eq_none (cs av : List String) :
    select_font cs av = none ↔ ∀ c ∈ cs, c ∉ av := by
  induction cs with
  | nil => simp [select_font]
  | cons f rest ih =>
    by_cases h : f ∈ av <;> simp [select_font, h, ih]

/-- When some candidate is installed, the scan returns the earliest installed
candidate: an index `i` whose entry is installed while every earlier entry is
not. -/
theorem select_font_spec (cs av : List String) (h : ∃ c ∈ cs, c ∈ av) :
    ∃ i, ∃ hi : i < cs.length,
      select_font cs av = some (cs.get ⟨i, hi⟩) ∧
      cs.get ⟨i, hi⟩ ∈ av ∧
      ∀ j (hj : j < cs.length), j < i → cs.get ⟨j, hj⟩ ∉ av := by
  induction cs with
  | nil => simp at h
  | cons f rest ih =>
    by_cases hf : f ∈ av
    · refine ⟨0, by simp, ?_, by simpa using hf, ?_⟩
      · simp [select_font, hf]
      · intro j hj hj0
        exact absurd hj0 (Nat.not_lt_zero j)
    · have h' : ∃ c ∈ rest, c ∈ av := by
        rcases h with ⟨c, hc, hcav⟩
        rcases List.mem_cons.mp hc with rfl | hcr
        · exact absurd hcav hf
        · exact ⟨c, hcr, hcav⟩
      rcases ih h' with ⟨i, hi, heq, hmem, hmin⟩
      refine ⟨i + 1, by simpa using Nat.succ_lt_succ hi, ?_, ?_, ?_⟩
      · simpa [select_font, hf] using heq
      · simpa using hmem
      · intro j hj hji
        cases j with
        | zero => simpa using hf
        | succ j' =>
          have hj' : j' < rest.length := by
            simpa using Nat.lt_of_succ_lt_succ hj
          simpa using hmin j' hj' (Nat.lt_of_succ_lt_succ hji)

/-- An installed-font list disjoint from all three candidate lists makes the
scan fail whatever the operating system string is. -/
theorem disjoint_select_none (system : String) (available_fonts : List String)
    (hdisj : ∀ c ∈ windows_candidates ++ darwin_candidates ++ linux_candidates,
      c ∉ available_fonts) :
    select_font (font_candidates system) available_fonts = none := by
  rw [select_font_eq_none]
  intro c hc
  apply hdisj
  simp only [List.mem_append]
  unfold font_candidates at hc
  split at hc
  · exact Or.inl (Or.inl hc)
  · split at hc
    · exact Or.inl (Or.inr hc)
    · exact Or.inr hc

/-! ## Claim theorems -/

/-- Claim C1: for every operating-system class and every installed font set
containing at least one candidate of that class's list, `setup_korean_font`
returns the first candidate in list order that is present in the set
(exact-name membership), every earlier candidate being absent. -/
theorem font_resolver_returns_first_match (system : String)
    (available_fonts : List String) (bundled_font : Option String)
    (rc : RcParams)
    (h : ∃ c ∈ font_candidates system, c ∈ available_fonts) :
    ∃ i, ∃ hi : i < (font_candidates system).length,
      (setup_korean_font system available_fonts bundled_font rc).1 =
        some ((font_candidates system).get ⟨i, hi⟩) ∧
      (font_candidates system).get ⟨i, hi⟩ ∈ available_fonts ∧
      ∀ j (hj : j < (font_candidates system).length), j < i →
        (font_candidates system).get ⟨j, hj⟩ ∉ available_fonts := by
  rcases select_font_spec (font_candidates system) available_fonts h with
    ⟨i, hi, heq, hmem, hmin⟩
  exact ⟨i, hi, by simp [setup_korean_font, heq], hmem, hmin⟩

/-- Witness for C1: macOS with `Apple SD Gothic Neo` and `Helvetica`
installed satisfies the hypothesis, and the conclusion holds there. -/
theorem font_resolver_returns_first_match_witness :
    (∃ c ∈ font_candidates "Darwin",
      c ∈ ["Apple SD Gothic Neo", "Helvetica"]) ∧
    (∃ i, ∃ hi : i < (font_candidates "Darwin").length,
      (setup_korean_font "Darwin" ["Apple SD Gothic Neo", "Helvetica"] none
          ⟨"sans-serif", true⟩).1 =
        some ((font_candidates "Darwin").get ⟨i, hi⟩) ∧
      (font_candidates "Darwin").get ⟨i, hi⟩ ∈
        ["Apple SD Gothic Neo", "Helvetica"] ∧
      ∀ j (hj : j < (font_candidates "Darwin").length), j < i →
        (font_candidates "Darwin").get ⟨j, hj⟩ ∉
          ["Apple SD Gothic Neo", "Helvetica"]) :=
  ⟨by decide,
    font_resolver_returns_first_match "Darwin"
      ["Apple SD Gothic Neo", "Helvetica"] none ⟨"sans-serif", true⟩
      (by decide)⟩

/-- Claim C2: when the installed font set is disjoint from all three candidate
lists and the bundled font file is absent, unreadable, or malformed (embedded
as `bundled_font = none`), the resolver returns the failure indicator and the
global configuration is returned exactly as it was. -/
theorem font_resolver_failure_leaves_config (system : String)
    (available_fonts : List String) (rc : RcParams)
    (hdisj : ∀ c ∈ windows_candidates ++ darwin_candidates ++ linux_candidates,
      c ∉ available_fonts) :
    setup_korean_font system available_fonts none rc =
      (none, FontStatus.failure, rc) := by
  simp [setup_korean_font, disjoint_select_none system available_fonts hdisj]

/-- Witness for C2: a host with only `Arial` installed and no bundled file. -/
theorem font_resolver_failure_leaves_config_witness :
    (∀ c ∈ windows_candidates ++ darwin_candidates ++ linux_candidates,
      c ∉ ["Arial"]) ∧
    setup_korean_font "Linux" ["Arial"] none ⟨"sans-serif", true⟩ =
      (none, FontStatus.failure, ⟨"sans-serif", true⟩) :=
  ⟨by decide,
    font_resolver_failure_leaves_config "Linux" ["Arial"] ⟨"sans-serif", true⟩
      (by decide)⟩

/-- Claim C3: when the installed font set is disjoint from all candidate lists
but the bundled font file loads with metadata name `name`, the resolver
returns that name and applies it as the global font family. -/
theorem font_resolver_bundled_fallback (system name : String)
    (available_fonts : List String) (rc : RcParams)
    (hdisj : ∀ c ∈ windows_candidates ++ darwin_candidates ++ linux_candidates,
      c ∉ available_fonts) :
    setup_korean_font system available_fonts (some name) rc =
      (some name, FontStatus.fallback,
        { fontFamily := name, unicodeMinus := false }) := by
  simp [setup_korean_font, disjoint_select_none system available_fonts hdisj]

/-- Witness for C3: only `Arial` installed, bundled file named
`Noto Sans KR`. -/
theorem font_resolver_bundled_fallback_witness :
    (∀ c ∈ windows_candidates ++ darwin_candidates ++ linux_candidates,
      c ∉ ["Arial"]) ∧
    setup_korean_font "Linux" ["Arial"] (some "Noto Sans KR")
        ⟨"sans-serif", true⟩ =
      (some "Noto Sans KR", FontStatus.fallback,
        { fontFamily := "Noto Sans KR", unicodeMinus := false }) :=
  ⟨by decide,
    font_resolver_bundled_fallback "Linux" "Noto Sans KR" ["Arial"]
      ⟨"sans-serif", true⟩ (by decide)⟩

/-- Claim C4: the candidate list is a total function of the OS identifier
(`"Windows"` → Windows list, `"Darwin"` → macOS list, everything else → the
Other/Linux list), and the two end-to-end scenarios resolve as specified. -/
theorem font_candidates_total_and_scenarios (bundled_font : Option String)
    (rc : RcParams) :
    (font_candidates "Windows" = windows_candidates ∧
     font_candidates "Darwin" = darwin_candidates ∧
     ∀ s : String, s ≠ "Windows" → s ≠ "Darwin" →
       font_candidates s = linux_candidates) ∧
    (setup_korean_font "Darwin" ["Apple SD Gothic Neo", "Helvetica"]
        bundled_font rc).1 = some "Apple SD Gothic Neo" ∧
    (setup_korean_font "Windows" ["Malgun Gothic"] bundled_font rc).1 =
      some "Malgun Gothic" := by
  refine ⟨⟨rfl, rfl, ?_⟩, rfl, rfl⟩
  intro s h1 h2
  simp [font_candidates, h1, h2]

/-- Witness for C4: `"Linux"` is neither `"Windows"` nor `"Darwin"` and gets
the Other/Linux list; the Darwin scenario resolves as claimed. -/
theorem font_candidates_total_and_scenarios_witness :
    font_candidates "Linux" = linux_candidates ∧
    (setup_korean_font "Darwin" ["Apple SD Gothic Neo", "Helvetica"] none
        ⟨"sans-serif", true⟩).1 = some "Apple SD Gothic Neo" :=
  ⟨(font_candidates_total_and_scenarios none ⟨"sans-serif", true⟩).1.2.2
      "Linux" (by decide) (by decide),
    (font_candidates_total_and_scenarios none ⟨"sans-serif", true⟩).2.1⟩

/-- Claim C5: whenever the resolver returns a font name (installed match or
bundled fallback), the final global configuration has the minus-sign flag
disabled (`axes.unicode_minus = False`) and that name as font family. -/
theorem font_resolver_disables_unicode_minus (system : String)
    (available_fonts : List String) (bundled_font : Option String)
    (rc : RcParams) (name : String)
    (h : (setup_korean_font system available_fonts bundled_font rc).1 =
        some name) :
    (setup_korean_font system available_fonts bundled_font rc).2.2.unicodeMinus
        = false ∧
    (setup_korean_font system available_fonts bundled_font rc).2.2.fontFamily
        = name := by
  cases hsel : select_font (font_candidates system) available_fonts with
  | some f => simp_all [setup_korean_font, hsel]
  | none =>
    cases bundled_font with
    | some n => simp_all [setup_korean_font, hsel]
    | none => simp_all [setup_korean_font, hsel]

/-- Witness for C5: Windows with `Malgun Gothic` installed. -/
theorem font_resolver_disables_unicode_minus_witness :
    (setup_korean_font "Windows" ["Malgun Gothic"] none
        ⟨"sans-serif", true⟩).1 = some "Malgun Gothic" ∧
    ((setup_korean_font "Windows" ["Malgun Gothic"] none
        ⟨"sans-serif", true⟩).2.2.unicodeMinus = false ∧
     (setup_korean_font "Windows" ["Malgun Gothic"] none
        ⟨"sans-serif", true⟩).2.2.fontFamily = "Malgun Gothic") :=
  ⟨by decide,
    font_resolver_disables_unicode_minus "Windows" ["Malgun Gothic"] none
      ⟨"sans-serif", true⟩ "Malgun Gothic" (by decide)⟩

/-- Claim C6: in every execution of `main`, font setup is the first
rendering-relevant step (so the resolver's result reaches the global
configuration before any chart is drawn), every later step is a chart
drawing, no chart drawing changes the global configuration, and therefore
the configuration after all of `main`'s steps is exactly the one the
resolver applied. -/
theorem main_applies_font_before_charts (chart_type system : String)
    (available_fonts : List String) (bundled_font : Option String)
    (rc : RcParams) :
    (main_steps chart_type).head? = some MainStep.setupFont ∧
    (∀ st ∈ (main_steps chart_type).tail, ∃ c, st = MainStep.draw c) ∧
    (∀ c rc0, chart_effect c rc0 = rc0) ∧
    run_main system available_fonts bundled_font chart_type rc =
      (setup_korean_font system available_fonts bundled_font rc).2.2 := by
  refine ⟨rfl, ?_, fun c rc0 => rfl, ?_⟩
  · intro st hst
    simp only [main_steps, List.tail_cons, List.mem_append, List.mem_map,
      List.mem_cons, List.mem_singleton, Option.mem_toList] at hst
    rcases hst with ⟨c, _, rfl⟩ | rfl | rfl | h
    · exact ⟨c, rfl⟩
    · exact ⟨Chart.plotlyBar, rfl⟩
    · exact ⟨Chart.plotlyDonut, rfl⟩
    · exact absurd h (List.not_mem_nil st)
  · cases h : selected_chart chart_type <;>
      simp [run_main, main_steps, h, step_effect, chart_effect]

/-- Witness for C6: with the pie chart selected on a Linux host with no
suitable fonts, the draw steps of `main` follow font setup and the final
configuration equals the one the resolver left. -/
theorem main_applies_font_before_charts_witness :
    MainStep.draw Chart.pie ∈ (main_steps "파이 차트").tail ∧
    (∃ c, MainStep.draw Chart.pie = MainStep.draw c) ∧
    run_main "Linux" [] none "파이 차트" ⟨"sans-serif", true⟩ =
      (setup_korean_font "Linux" [] none ⟨"sans-serif", true⟩).2.2 :=
  ⟨by decide,
    (main_applies_font_before_charts "파이 차트" "Linux" [] none
        ⟨"sans-serif", true⟩).2.1 (MainStep.draw Chart.pie) (by decide),
    (main_applies_font_before_charts "파이 차트" "Linux" [] none
        ⟨"sans-serif", true⟩).2.2.2⟩

/-- Counterexample to claim C7 as stated: the eight population values of the
fixed dataset sum to 22,860,013, not to the 24,860,013 the claim asserts. -/
theorem total_population_ne_claimed_sum :
    total_population = 22860013 ∧ ¬ total_population = 24860013 := by
  constructor
  · rfl
  · intro h
    simp [total_population, populations] at h

/-- Claim C7 (amended): the pie chart has eight wedges, labeled by the eight
regions, whose values sum to the summary-metric total, and that total is
22,860,013. -/
theorem pie_chart_wedges_sum :
    pie_wedges.length = 8 ∧
    pie_wedges.map Prod.fst = regions ∧
    (pie_wedges.map Prod.snd).sum = total_population ∧
    total_population = 22860013 := by
  refine ⟨rfl, ?_, ?_, rfl⟩
  · rfl
  · rfl

/-- Claim C8: resolution is deterministic and idempotent: invoking the
resolver a second time with the same OS and font inventory, starting from the
configuration the first call left, returns the same name, the same status,
and the same final configuration. -/
theorem font_resolver_idempotent (system : String)
    (available_fonts : List String) (bundled_font : Option String)
    (rc : RcParams) :
    setup_korean_font system available_fonts bundled_font
        (setup_korean_font system available_fonts bundled_font rc).2.2 =
      setup_korean_font system available_fonts bundled_font rc := by
  cases hsel : select_font (font_candidates system) available_fonts with
  | some f => simp [setup_korean_font, hsel]
  | none =>
    cases bundled_font with
    | some n => simp [setup_korean_font, hsel]
    | none => simp [setup_korean_font, hsel]

/-- Claim C9: the diagnostic panel's list holds at most 10 names, each an
installed name containing one of the markers `Gothic`, `Noto`, `Malgun`; it
is the 10-element truncation of the marker filter in enumeration order, and
when at most 10 installed names carry a marker it holds all of them. -/
theorem diagnostic_fonts_characterization (ttflist : List String) :
    (diagnostic_fonts ttflist).length ≤ 10 ∧
    (∀ x, x ∈ diagnostic_fonts ttflist →
      x ∈ ttflist ∧ hasKoreanMarker x = true) ∧
    diagnostic_fonts ttflist = (ttflist.filter hasKoreanMarker).take 10 ∧
    ((ttflist.filter hasKoreanMarker).length ≤ 10 →
      ∀ x ∈ ttflist, hasKoreanMarker x = true →
        x ∈ diagnostic_fonts ttflist) := by
  refine ⟨?_, ?_, rfl, ?_⟩
  · exact List.length_take_le 10 (ttflist.filter hasKoreanMarker)
  · intro x hx
    have hx' : x ∈ ttflist.filter hasKoreanMarker :=
      List.mem_of_mem_take hx
    exact List.mem_filter.mp hx'
  · intro hlen x hxl hxm
    have hx' : x ∈ ttflist.filter hasKoreanMarker :=
      List.mem_filter.mpr ⟨hxl, hxm⟩
    simp only [diagnostic_fonts, List.take_of_length_le hlen]
    exact hx'

/-- Witness for C9: a three-font inventory where the two marker-bearing names
appear in the diagnostic list. -/
theorem diagnostic_fonts_characterization_witness :
    "Malgun Gothic" ∈ diagnostic_fonts ["Malgun Gothic", "Arial", "Noto Sans"] ∧
    ("Malgun Gothic" ∈ ["Malgun Gothic", "Arial", "Noto Sans"] ∧
      hasKoreanMarker "Malgun Gothic" = true) :=
  ⟨by decide,
    (diagnostic_fonts_characterization
        ["Malgun Gothic", "Arial", "Noto Sans"]).2.1 "Malgun Gothic"
      (by decide)⟩

/-- Claim C10: whenever the resolver returns a font name, that name is
exactly the font family stored in the global configuration at return time,
on both the installed-match and the bundled-fallback path. -/
theorem resolver_result_matches_config (system : String)
    (available_fonts : List String) (bundled_font : Option String)
    (rc : RcParams) (name : String)
    (h : (setup_korean_font system available_fonts bundled_font rc).1 =
        some name) :
    (setup_korean_font system available_fonts bundled_font rc).2.2.fontFamily
      = name := by
  cases hsel : select_font (font_candidates system) available_fonts with
  | some f => simp_all [setup_korean_font, hsel]
  | none =>
    cases bundled_font with
    | some n => simp_all [setup_korean_font, hsel]
    | none => simp_all [setup_korean_font, hsel]

/-- Witness for C10: the bundled-fallback path on a host with no suitable
installed font. -/
theorem resolver_result_matches_config_witness :
    (setup_korean_font "Linux" [] (some "Noto Sans KR")
        ⟨"sans-serif", true⟩).1 = some "Noto Sans KR" ∧
    (setup_korean_font "Linux" [] (some "Noto Sans KR")
        ⟨"sans-serif", true⟩).2.2.fontFamily = "Noto Sans KR" :=
  ⟨by decide,
    resolver_result_matches_config "Linux" [] (some "Noto Sans KR")
      ⟨"sans-serif", true⟩ "Noto Sans KR" (by decide)⟩
